import Mathlib

/-!
Shallow embedding of the LXC/chroot SSH connection plugin
(`connection/ssh-outoftheway.py`).

The plugin subclasses the framework's SSH connection class.  The state it
adds is captured once at construction: `chroot_path`, `container_name`,
`physical_host` (each `None` when the play context lacks the attribute),
`container_type` (defaulting to the literal `'lxc'`), plus the play
context's `remote_user` and the connection's dialed address `host`.

Python `None`-able string attributes are embedded as `Option String`.
String-producing helpers from the Python standard library that the code
calls (`shlex.quote`, `str.strip`, `str.lstrip`, `os.path.join`) are
embedded by structural recursion over `List Char` so that every
definition evaluates inside the kernel.
-/

namespace OotwSSH

/-- Python `'%s' % x` renders `None` as the text `None`; on the code paths
proved below the optional is always `some`, but the embedding keeps the
rendering faithful. -/
def pyStr : Option String → String
  | some s => s
  | none => "None"

/-- The character class of Python `shlex._find_unsafe`: a character is safe
iff it is an ASCII word character or one of `@ % + = : , . /` or the
hyphen. -/
def shlexSafeChar (c : Char) : Bool :=
  c.isAlphanum || c = '_' || c = '@' || c = '%' || c = '+' || c = '=' ||
  c = ':' || c = ',' || c = '.' || c = '/' || c = '-'

/-- `shlex._find_unsafe(s) is not None`: some character of `s` is unsafe. -/
def findUnsafe (s : String) : Bool :=
  s.toList.any (fun c => !(shlexSafeChar c))

/-- Python `s.replace("'", "'\"'\"'")` on the character list: every single
quote becomes the five-character sequence quote, double-quote, quote,
double-quote, quote. -/
def quoteEscape : List Char → List Char
  | [] => []
  | c :: rest =>
      if c = '\x27' then
        '\x27' :: '"' :: '\x27' :: '"' :: '\x27' :: quoteEscape rest
      else
        c :: quoteEscape rest

/-- Python `shlex.quote`: the empty string becomes `''`; a string of only
safe characters is returned unchanged; otherwise the string is wrapped in
single quotes with embedded single quotes escaped. -/
def shlex_quote (s : String) : String :=
  if s = "" then "\x27\x27"
  else if findUnsafe s then
    "\x27" ++ String.mk (quoteEscape s.toList) ++ "\x27"
  else s

/-- Python `str.strip()` whitespace set: space, tab, newline, carriage
return, vertical tab, form feed. -/
def pyWhitespace (c : Char) : Bool :=
  c = ' ' || c = '\t' || c = '\n' || c = '\r' || c = '\x0b' || c = '\x0c'

/-- Python `str.strip()`: drop whitespace from both ends. -/
def pyStrip (s : String) : String :=
  String.mk (((s.toList.dropWhile pyWhitespace).reverse.dropWhile
    pyWhitespace).reverse)

/-- Python `path.lstrip(os.sep)` with `os.sep = '/'`: drop every leading
slash. -/
def pyLstripSep (s : String) : String :=
  String.mk (s.toList.dropWhile (fun c => c = '/'))

/-- Does the string start with the path separator?  (`b.startswith(sep)`
inside `posixpath.join`.) -/
def startsWithSep (s : String) : Bool :=
  match s.toList with
  | c :: _ => c = '/'
  | [] => false

/-- Does the string end with the path separator?  (`path.endswith(sep)`
inside `posixpath.join`.) -/
def endsWithSep (s : String) : Bool :=
  match s.toList.reverse with
  | c :: _ => c = '/'
  | [] => false

/-- Two-argument `os.path.join` on POSIX: an absolute second component
replaces the first; otherwise the components are joined, inserting `/`
unless the first is empty or already ends with `/`. -/
def posixJoin (a b : String) : String :=
  if startsWithSep b then b
  else if a = "" || endsWithSep a then a ++ b
  else a ++ "/" ++ b

/-- The per-connection state the plugin's `__init__` captures from the play
context, plus the dialed address `host` that `set_host_overrides` may
rewrite.  `container_type` is the string `'lxc'` when the play context has
no such attribute. -/
structure Connection where
  chroot_path : Option String
  container_name : Option String
  physical_host : Option String
  container_type : String
  remote_user : Option String
  host : String
deriving DecidableEq, Repr

/-- `Connection.__init__`: each descriptor field falls back to `None`
(`container_type` to `'lxc'`) when the play context lacks the attribute. -/
def Connection.init (chroot_path container_name physical_host : Option String)
    (container_type : Option String) (remote_user : Option String)
    (host : String) : Connection :=
  { chroot_path := chroot_path
    container_name := container_name
    physical_host := physical_host
    container_type := container_type.getD "lxc"
    remote_user := remote_user
    host := host }

/-- `Connection._container_check`: returns `False` immediately unless
`container_type == 'lxc'`; then `True` exactly when `container_name` and
`physical_host` are both non-`None` and differ. -/
def Connection.container_check (c : Connection) : Bool :=
  if c.container_type ≠ "lxc" then false
  else
    match c.container_name, c.physical_host with
    | some cn, some ph => cn ≠ ph
    | _, _ => false

/-- `Connection._chroot_check`: `True` exactly when `chroot_path` and
`physical_host` are both non-`None`. -/
def Connection.chroot_check (c : Connection) : Bool :=
  match c.chroot_path, c.physical_host with
  | some _, some _ => true
  | _, _ => false

/-- The container branch of `exec_command`: when `_container_check()` holds
the command becomes
`lxc-attach --clear-env --name <container_name> -- su - <user> -c
<shlex_quote(cmd)>`, where the user is `remote_user` when truthy (set and
non-empty) and `'root'` otherwise.  (`to_bytes` on the user is an encoding
no-op at this level.) -/
def Connection.container_wrap (c : Connection) (cmd : String) : String :=
  if c.container_check then
    let container_user :=
      match c.remote_user with
      | some u => if u = "" then "root" else u
      | none => "root"
    let lxc_command := "lxc-attach --clear-env --name " ++ pyStr c.container_name
    lxc_command ++ " -- su - " ++ container_user ++ " -c " ++ shlex_quote cmd
  else cmd

/-- The chroot branch of `exec_command`: when `_chroot_check()` holds the
command is prefixed with `chroot <chroot_path> `. -/
def Connection.chroot_wrap (c : Connection) (cmd : String) : String :=
  if c.chroot_check then
    "chroot " ++ pyStr c.chroot_path ++ " " ++ cmd
  else cmd

/-- The full command rewriting of `exec_command` before delegation to the
base class: the container branch runs first, the chroot branch second, so
a chroot prefix always wraps the already-container-wrapped command. -/
def Connection.rewrite_command (c : Connection) (cmd : String) : String :=
  c.chroot_wrap (c.container_wrap cmd)

/-- The error message raised by `_container_path_pad` when the PID lookup
fails. -/
def padErrorMsg (c : Connection) : String :=
  "No valid container info was found for container \"" ++
  pyStr c.container_name ++
  "\" Please check the state of the container."

/-- `Connection._container_path_pad`, given the `(returncode, stdout)` of
the remote PID lookup: on exit status zero the padded path is
`os.path.join('/proc/<stdout.strip()>/root', path.lstrip('/'))`; otherwise
an `AnsibleError` naming the container is raised (embedded as
`Except.error`). -/
def Connection.container_path_pad (c : Connection) (returncode : Int)
    (stdout : String) (path : String) : Except String String :=
  if returncode = 0 then
    Except.ok (posixJoin ("/proc/" ++ pyStrip stdout ++ "/root")
      (pyLstripSep path))
  else
    Except.error (padErrorMsg c)

/-- The remote execution `_container_path_pad` issues before inspecting its
result: a command built for the dialed address. -/
structure RemoteExec where
  addr : String
  cmd : String
  sudoable : Bool
deriving DecidableEq, Repr

/-- The `self._run(self._build_command('ssh', self.host, ...), in_data=None,
sudoable=False)` request of `_container_path_pad`: the PID-lookup pipeline
runs against `self.host` without privilege elevation. -/
def Connection.pad_request (c : Connection) : RemoteExec :=
  { addr := c.host
    cmd := "lxc-info --name " ++ pyStr c.container_name ++
      " --pid | awk \x27/PID:/ \x7bprint $2\x7d\x27"
    sudoable := false }

/-- Python `dict.get(k, d)` over an association list. -/
def lookupD (m : List (String × String)) (k d : String) : String :=
  match m.find? (fun p => p.1 = k) with
  | some p => p.2
  | none => d

/-- `Connection.set_host_overrides`: when either check holds, the dialed
address becomes `hostvars['physical_host_addrs'].get(physical_host,
physical_host)`.  (Both checks require `physical_host` to be non-`None`,
so rendering the key with `pyStr` is exact on every reachable branch.) -/
def Connection.set_host_overrides (c : Connection)
    (physical_host_addrs : List (String × String)) : Connection :=
  if c.container_check || c.chroot_check then
    { c with
        host := lookupD physical_host_addrs (pyStr c.physical_host)
          (pyStr c.physical_host) }
  else c

/-- `Connection.fetch_file`: pads the remote source path (and only it)
through `_container_path_pad` when `_container_check()` holds; the pair
returned is what is handed to the base class.  The `(returncode, stdout)`
parameters stand for the remote PID lookup's result; they are consulted
only when the check holds. -/
def Connection.fetch_file (c : Connection) (returncode : Int)
    (stdout : String) (in_path out_path : String) :
    Except String (String × String) :=
  if c.container_check then
    match c.container_path_pad returncode stdout in_path with
    | Except.ok p => Except.ok (p, out_path)
    | Except.error e => Except.error e
  else Except.ok (in_path, out_path)

/-- `Connection.put_file`: pads the remote destination path (and only it)
through `_container_path_pad` when `_container_check()` holds. -/
def Connection.put_file (c : Connection) (returncode : Int)
    (stdout : String) (in_path out_path : String) :
    Except String (String × String) :=
  if c.container_check then
    match c.container_path_pad returncode stdout out_path with
    | Except.ok p => Except.ok (in_path, p)
    | Except.error e => Except.error e
  else Except.ok (in_path, out_path)

/-- The effective container user of the `exec_command` container branch:
`remote_user` when set and non-empty, the literal `root` otherwise. -/
def effectiveUser (remote_user : Option String) : String :=
  match remote_user with
  | some u => if u = "" then "root" else u
  | none => "root"

/-- A container-targeted connection: container `c1` on physical host `h1`,
no chroot, `remote_user` unset (the worked example of the specification). -/
def demoContainer : Connection :=
  { chroot_path := none
    container_name := some "c1"
    physical_host := some "h1"
    container_type := "lxc"
    remote_user := none
    host := "h1" }

/-- The same target with `chroot_path = /srv/root` added, so both checks
hold. -/
def demoBoth : Connection :=
  { demoContainer with chroot_path := some "/srv/root" }

/-- A connection with no container and no chroot configured. -/
def demoPlain : Connection :=
  { chroot_path := none
    container_name := none
    physical_host := none
    container_type := "lxc"
    remote_user := none
    host := "h0" }

/-- A chroot-only connection (chroot configured, no container name). -/
def demoChrootOnly : Connection :=
  { chroot_path := some "/srv/root"
    container_name := none
    physical_host := some "h1"
    container_type := "lxc"
    remote_user := none
    host := "h1" }

section Lemmas

/-- Stripping leading slashes leaves a string that does not start with the
separator. -/
theorem startsWithSep_pyLstripSep (s : String) :
    startsWithSep (pyLstripSep s) = false := by
  show (match s.toList.dropWhile (fun c => decide (c = '/')) with
        | c :: _ => decide (c = '/')
        | [] => false) = false
  induction s.toList with
  | nil => rfl
  | cons a t ih =>
      by_cases h : a = '/'
      · simpa [List.dropWhile_cons, h] using ih
      · simp [List.dropWhile_cons, h]

/-- The base directory `/proc/<pid>/root` built by `_container_path_pad`
never ends with the separator. -/
theorem endsWithSep_padBase (x : String) :
    endsWithSep ("/proc/" ++ x ++ "/root") = false := by
  have h : ("/proc/" ++ x ++ "/root").toList.reverse
      = 't' :: 'o' :: 'o' :: 'r' :: '/' :: ("/proc/" ++ x).toList.reverse := by
    show (("/proc/" ++ x).data ++ "/root".data).reverse = _
    rw [List.reverse_append]
    rfl
  unfold endsWithSep
  rw [h]
  rfl

/-- The base directory `/proc/<pid>/root` is never the empty string. -/
theorem padBase_ne_empty (x : String) : ("/proc/" ++ x ++ "/root") ≠ "" := by
  intro h
  have h2 := congrArg String.data h
  have hr : ("/root" : String).data = ['/', 'r', 'o', 'o', 't'] := rfl
  simp [String.data_append, hr] at h2

/-- `os.path.join` concatenates with a single inserted separator whenever
the second component is not absolute and the first is non-empty and does
not already end with a separator. -/
theorem posixJoin_eq_concat (a b : String) (hb : startsWithSep b = false)
    (ha0 : a ≠ "") (ha1 : endsWithSep a = false) :
    posixJoin a b = a ++ "/" ++ b := by
  unfold posixJoin
  simp [hb, ha0, ha1]

/-- The padded path computed by `_container_path_pad` on a successful PID
lookup, written as one concatenation. -/
theorem padded_path_eq (stdout path : String) :
    posixJoin ("/proc/" ++ pyStrip stdout ++ "/root") (pyLstripSep path)
      = "/proc/" ++ pyStrip stdout ++ "/root/" ++ pyLstripSep path := by
  rw [posixJoin_eq_concat _ _ (startsWithSep_pyLstripSep path)
    (padBase_ne_empty _) (endsWithSep_padBase _)]
  apply String.ext
  have hr : ("/root" : String).data = ['/', 'r', 'o', 'o', 't'] := rfl
  have hs : ("/" : String).data = ['/'] := rfl
  have hr2 : ("/root/" : String).data = ['/', 'r', 'o', 'o', 't', '/'] := rfl
  simp [String.data_append, hr, hs, hr2]

end Lemmas

/-- C1: whenever `_container_check()` holds, the container branch of
`exec_command` rewrites the original command to
`lxc-attach --clear-env --name <container_name> -- su - <user> -c
<shell-escaped original command>`, where the user is `remote_user` when
non-empty and the literal `root` otherwise. -/
theorem exec_command_container_wrap (c : Connection) (cmd : String)
    (h : c.container_check = true) :
    c.container_wrap cmd =
      "lxc-attach --clear-env --name " ++ pyStr c.container_name ++
        " -- su - " ++ effectiveUser c.remote_user ++ " -c " ++
        shlex_quote cmd := by
  unfold Connection.container_wrap effectiveUser
  rw [if_pos h]

/-- Witness for C1: with command `echo hi`, container `c1`, physical host
`h1` and `remote_user` unset, the wrapped command is exactly
`lxc-attach --clear-env --name c1 -- su - root -c 'echo hi'`. -/
theorem exec_command_container_wrap_witness :
    demoContainer.container_check = true ∧
    demoContainer.container_wrap "echo hi" =
      "lxc-attach --clear-env --name c1 -- su - root -c \x27echo hi\x27" :=
  ⟨by decide, (exec_command_container_wrap demoContainer "echo hi"
    (by decide)).trans (by decide)⟩

/-- C2: when the remote PID lookup exits with status zero,
`_container_path_pad` returns
`/proc/<trimmed stdout>/root/<path with every leading separator stripped>`. -/
theorem container_path_pad_ok (c : Connection) (rc : Int)
    (stdout path : String) (_hc : c.container_check = true) (h0 : rc = 0) :
    c.container_path_pad rc stdout path =
      Except.ok ("/proc/" ++ pyStrip stdout ++ "/root/" ++
        pyLstripSep path) := by
  unfold Connection.container_path_pad
  rw [if_pos h0, padded_path_eq]

/-- Witness for C2: exit code 0, stdout `"1234\n"` and path `/etc/hosts`
yield `/proc/1234/root/etc/hosts`. -/
theorem container_path_pad_ok_witness :
    demoContainer.container_check = true ∧
    demoContainer.container_path_pad 0 "1234\n" "/etc/hosts" =
      Except.ok "/proc/1234/root/etc/hosts" :=
  ⟨by decide, (container_path_pad_ok demoContainer 0 "1234\n" "/etc/hosts"
    (by decide) rfl).trans rfl⟩

/-- C3: when the remote PID lookup exits non-zero, `_container_path_pad`
raises an error whose message contains the container name, and no padded
path is returned. -/
theorem container_path_pad_failure (c : Connection) (rc : Int)
    (stdout path : String) (h : rc ≠ 0) :
    c.container_path_pad rc stdout path = Except.error (padErrorMsg c) ∧
    (∃ pre post, padErrorMsg c = pre ++ pyStr c.container_name ++ post) ∧
    ∀ p, c.container_path_pad rc stdout path ≠ Except.ok p := by
  have he : c.container_path_pad rc stdout path =
      Except.error (padErrorMsg c) := by
    unfold Connection.container_path_pad
    rw [if_neg h]
  refine ⟨he, ⟨"No valid container info was found for container \"",
    "\" Please check the state of the container.", rfl⟩, ?_⟩
  intro p hp
  rw [he] at hp
  exact Except.noConfusion hp

/-- Witness for C3: exit code 1 on the `c1` target produces the error
message and no path. -/
theorem container_path_pad_failure_witness :
    demoContainer.container_path_pad 1 "" "/etc/hosts" =
      Except.error (padErrorMsg demoContainer) :=
  (container_path_pad_failure demoContainer 1 "" "/etc/hosts" (by decide)).1

/-- C4: `_container_check()` is true exactly when `container_type` is
`lxc`, `container_name` and `physical_host` are both set, and they
differ; in every other case it is false (the check is a total function,
so no error is ever raised). -/
theorem container_check_iff (c : Connection) :
    c.container_check = true ↔
      (c.container_type = "lxc" ∧ c.container_name.isSome = true ∧
        c.physical_host.isSome = true ∧
        c.container_name ≠ c.physical_host) := by
  obtain ⟨cp, cn, ph, ct, ru, h⟩ := c
  rcases cn with _ | cn <;> rcases ph with _ | ph <;>
    by_cases ht : ct = "lxc" <;>
      simp [Connection.container_check, ht]

/-- Witness for C4: the `c1`-on-`h1` descriptor satisfies the right-hand
side, hence the check holds. -/
theorem container_check_iff_witness :
    demoContainer.container_check = true :=
  (container_check_iff demoContainer).mpr (by decide)

/-- C5: whenever `_chroot_check()` holds, the rewritten command is
`chroot <chroot_path> ` prepended to the result of the container-wrapping
step (which is the original command when container wrapping did not
apply); the chroot prefix always wraps the container-wrapped command,
never the reverse. -/
theorem exec_command_chroot_wrap (c : Connection) (cmd : String)
    (h : c.chroot_check = true) :
    c.rewrite_command cmd =
      "chroot " ++ pyStr c.chroot_path ++ " " ++ c.container_wrap cmd := by
  unfold Connection.rewrite_command Connection.chroot_wrap
  rw [if_pos h]

/-- Witness for C5: with both predicates true and `chroot_path=/srv/root`,
the output is `chroot /srv/root ` followed by the container-wrapped
command of the C1 example. -/
theorem exec_command_chroot_wrap_witness :
    demoBoth.chroot_check = true ∧ demoBoth.container_check = true ∧
    demoBoth.rewrite_command "echo hi" =
      "chroot /srv/root lxc-attach --clear-env --name c1 -- su - root -c \x27echo hi\x27" :=
  ⟨by decide, by decide, (exec_command_chroot_wrap demoBoth "echo hi"
    (by decide)).trans (by decide)⟩

/-- C6: when either classifier predicate holds, `set_host_overrides`
replaces the dialed address with the `physical_host_addrs` entry for the
physical host, falling back to the physical-host identifier itself when
the key is absent. -/
theorem set_host_overrides_resolves (c : Connection)
    (addrs : List (String × String)) (ph : String)
    (hph : c.physical_host = some ph)
    (h : c.container_check = true ∨ c.chroot_check = true) :
    (c.set_host_overrides addrs).host = lookupD addrs ph ph ∧
    (addrs.find? (fun p => p.1 = ph) = none →
      (c.set_host_overrides addrs).host = ph) ∧
    ∀ q, addrs.find? (fun p => p.1 = ph) = some q →
      (c.set_host_overrides addrs).host = q.2 := by
  have hcond : (c.container_check || c.chroot_check) = true := by
    rcases h with h | h <;> simp [h]
  have hmain : (c.set_host_overrides addrs).host = lookupD addrs ph ph := by
    unfold Connection.set_host_overrides
    rw [if_pos hcond, hph]
    rfl
  refine ⟨hmain, ?_, ?_⟩
  · intro hf
    rw [hmain]
    unfold lookupD
    rw [hf]
  · intro q hf
    rw [hmain]
    unfold lookupD
    rw [hf]

/-- Witness for C6: a map containing the `h1` key rewrites the dialed
address to the mapped value; the empty map leaves the identifier. -/
theorem set_host_overrides_resolves_witness :
    (demoContainer.set_host_overrides [("h1", "10.0.0.5")]).host =
      "10.0.0.5" ∧
    (demoContainer.set_host_overrides []).host = "h1" :=
  ⟨((set_host_overrides_resolves demoContainer [("h1", "10.0.0.5")] "h1" rfl
      (Or.inl (by decide))).1).trans (by decide),
    (set_host_overrides_resolves demoContainer [] "h1" rfl
      (Or.inl (by decide))).2.1 rfl⟩

/-- C7: on a container target whose dialed address was set by
`set_host_overrides`, the remote execution issued by
`_container_path_pad` targets the resolved physical-host address, runs
exactly `lxc-info --name <container_name> --pid | awk '/PID:/ {print $2}'`,
and requests no privilege elevation. -/
theorem pad_request_after_overrides (c : Connection)
    (addrs : List (String × String)) (ph : String)
    (hph : c.physical_host = some ph)
    (hc : c.container_check = true) :
    (c.set_host_overrides addrs).pad_request =
      { addr := lookupD addrs ph ph
        cmd := "lxc-info --name " ++ pyStr c.container_name ++
          " --pid | awk \x27/PID:/ \x7bprint $2\x7d\x27"
        sudoable := false } := by
  have hcond : (c.container_check || c.chroot_check) = true := by
    simp [hc]
  unfold Connection.pad_request Connection.set_host_overrides
  rw [if_pos hcond, hph]
  rfl

/-- Witness for C7: with the `h1 ↦ 10.0.0.5` map, the PID-lookup request
dials `10.0.0.5`, with the literal pipeline, unprivileged. -/
theorem pad_request_after_overrides_witness :
    (demoContainer.set_host_overrides [("h1", "10.0.0.5")]).pad_request =
      { addr := "10.0.0.5"
        cmd := "lxc-info --name c1 --pid | awk \x27/PID:/ \x7bprint $2\x7d\x27"
        sudoable := false } :=
  (pad_request_after_overrides demoContainer [("h1", "10.0.0.5")] "h1" rfl
    (by decide)).trans (by decide)

/-- C8: `_chroot_check()` is true exactly when `chroot_path` and
`physical_host` are both set, and changing `container_name` never changes
its value. -/
theorem chroot_check_iff (c : Connection) :
    (c.chroot_check = true ↔
      c.chroot_path.isSome = true ∧ c.physical_host.isSome = true) ∧
    ∀ n, ({ c with container_name := n } : Connection).chroot_check =
      c.chroot_check := by
  constructor
  · obtain ⟨cp, cn, ph, ct, ru, h⟩ := c
    rcases cp with _ | cp <;> rcases ph with _ | ph <;>
      simp [Connection.chroot_check]
  · intro n
    rfl

/-- Witness for C8: the chroot-only descriptor (no container name) passes
the check. -/
theorem chroot_check_iff_witness :
    demoChrootOnly.chroot_check = true :=
  (chroot_check_iff demoChrootOnly).1.mpr (by decide)

/-- C9: when neither classifier predicate holds, the command rewriting of
`exec_command` is the identity. -/
theorem rewrite_command_identity (c : Connection) (cmd : String)
    (h1 : c.container_check = false) (h2 : c.chroot_check = false) :
    c.rewrite_command cmd = cmd := by
  simp [Connection.rewrite_command, Connection.chroot_wrap,
    Connection.container_wrap, h1, h2]

/-- Witness for C9: the plain descriptor leaves `echo hi` unchanged. -/
theorem rewrite_command_identity_witness :
    demoPlain.container_check = false ∧ demoPlain.chroot_check = false ∧
    demoPlain.rewrite_command "echo hi" = "echo hi" :=
  ⟨by decide, by decide,
    rewrite_command_identity demoPlain "echo hi" (by decide) (by decide)⟩

/-- C10: on a container target, `fetch_file` pads only the remote source
path and passes the local destination through unchanged, and `put_file`
pads only the remote destination path and passes the local source through
unchanged; when the container check fails (chroot-only targets included)
both operations pass both paths through unchanged. -/
theorem transfer_paths_pad (c : Connection) (rc : Int) (stdout i o : String) :
    (c.container_check = true →
      c.fetch_file rc stdout i o =
        (c.container_path_pad rc stdout i).map (fun p => (p, o)) ∧
      c.put_file rc stdout i o =
        (c.container_path_pad rc stdout o).map (fun p => (i, p))) ∧
    (c.container_check = false →
      c.fetch_file rc stdout i o = Except.ok (i, o) ∧
      c.put_file rc stdout i o = Except.ok (i, o)) := by
  constructor
  · intro h
    constructor
    · unfold Connection.fetch_file
      rw [if_pos h]
      rcases hp : c.container_path_pad rc stdout i with e | p <;>
        simp [hp, Except.map]
    · unfold Connection.put_file
      rw [if_pos h]
      rcases hp : c.container_path_pad rc stdout o with e | p <;>
        simp [hp, Except.map]
  · intro h
    constructor <;>
      simp [Connection.fetch_file, Connection.put_file, h]

/-- Witness for C10: on the container target a fetch pads the remote
source only and a put pads the remote destination only; the chroot-only
target leaves both paths untouched. -/
theorem transfer_paths_pad_witness :
    demoContainer.container_check = true ∧
    demoContainer.fetch_file 0 "1234\n" "/etc/hosts" "/tmp/out" =
      Except.ok ("/proc/1234/root/etc/hosts", "/tmp/out") ∧
    demoContainer.put_file 0 "1234\n" "/tmp/in" "/etc/hosts" =
      Except.ok ("/tmp/in", "/proc/1234/root/etc/hosts") ∧
    demoChrootOnly.fetch_file 0 "1234\n" "/etc/hosts" "/tmp/out" =
      Except.ok ("/etc/hosts", "/tmp/out") := by
  refine ⟨by decide, ?_, ?_, ?_⟩
  · exact (((transfer_paths_pad demoContainer 0 "1234\n" "/etc/hosts"
      "/tmp/out").1 (by decide)).1).trans rfl
  · exact (((transfer_paths_pad demoContainer 0 "1234\n" "/tmp/in"
      "/etc/hosts").1 (by decide)).2).trans rfl
  · exact ((transfer_paths_pad demoChrootOnly 0 "1234\n" "/etc/hosts"
      "/tmp/out").2 (by decide)).1

end OotwSSH
